import Mathlib

/-!
# Verification of the Go teaching snippets in NOTES_ON_GOLANG_IN_RUSSIAN

This file shallowly embeds the Go code fragments that the repository's
specification talks about — the WebSocket echo server, the channel-based
Observer sketch, the Singleton copies, the GORM `transferMoney` transaction,
the defer/named-return example and the Coffee decorator — and proves (or
refutes) the specification's claims about them.

Conventions of the embedding:
* Go pointers are modelled as allocation addresses (`Nat`); `nil` is `none`
  of an `Option Nat`.
* `float64` amounts and balances are modelled as exact rationals `ℚ`
  (the literals appearing in the snippets — `0.5`, `2.0` — are exact in
  binary floating point, so nothing is lost for them).
* Stateful Go code becomes explicit state passing; goroutine/channel
  nondeterminism becomes quantification over schedules.
* Machine integers never overflow in the snippets' toy ranges, so `Nat`/`Int`
  are used directly.
-/

namespace GoNotes

/-! ## §1  defer and named return values
    Source: `src/Golang/defer/Взаимодействие defer и именованного return в
    Golang.md`, lines 41-47.

    ```go
    func getValue() (result int) {
        defer func() { result += 10 }()
        result = 5
        return
    }
    ```
    Go semantics: the named result variable starts at its zero value, the body
    assigns to it, `return` fixes it, and then the deferred closures run, still
    able to mutate the named result; the caller sees the value after the
    deferred closures finished. -/

/-- Run a Go function body with one deferred closure over a named `int`
result: the named result starts at the zero value `0`, the body computes the
value in force at `return`, and the deferred closure runs after `return` but
before the function completes, with write access to the named result. -/
def runWithDefer (body : Int → Int) (deferredClosure : Int → Int) : Int :=
  deferredClosure (body 0)

/-- `getValue` from the defer note: body sets the named result to `5`,
the deferred closure adds `10` to it. -/
def getValue : Int :=
  runWithDefer (fun _result => 5) (fun result => result + 10)

/-! ## §2  The Coffee decorator
    Source: `src/Шаблоны проектирования/Observer в Golang.md`, lines 508-658
    (the Decorator excursus: `Beverage`, `SimpleCoffee`, `BeverageDecorator`,
    `MilkDecorator`, `SugarDecorator`, and the logging decorator
    `LoggedDecorator` of §2.2, lines 626-658).

    Go's `Beverage` interface has exactly four implementations in the file:
    `SimpleCoffee`, `MilkDecorator`, `SugarDecorator` and `LoggedDecorator`;
    the decorators hold the wrapped `Beverage` in the embedded
    `BeverageDecorator.beverage` field. We close the interface into an
    inductive type accordingly. -/

/-- The `Beverage` interface, closed over its four implementations in the
source file. `milk b` is the value built by `NewMilkDecorator(b)`, `sugar b`
the one built by `NewSugarDecorator(b)`, and `logged b` the one built by
`NewLoggedDecorator(b)`. -/
inductive Beverage : Type
  | simpleCoffee : Beverage
  | milk (beverage : Beverage) : Beverage
  | sugar (beverage : Beverage) : Beverage
  | logged (beverage : Beverage) : Beverage
  deriving DecidableEq, Repr

namespace Beverage

/-- `Cost()`: `SimpleCoffee.Cost` returns `2.0`; `MilkDecorator.Cost` returns
the wrapped beverage's cost plus `0.5`; `SugarDecorator.Cost` adds `0.2`;
`LoggedDecorator.Cost` measures and prints the elapsed time but returns the
wrapped beverage's cost unchanged. -/
def Cost : Beverage → ℚ
  | simpleCoffee => 2
  | milk b => Cost b + 1/2
  | sugar b => Cost b + 1/5
  | logged b => Cost b

/-- `Description()`: `"Простой кофе"` for simple coffee; the milk and sugar
decorators append `", с молоком"` / `", с сахаром"` to the wrapped
description; `LoggedDecorator.Description` prints a log line but returns the
wrapped description unchanged. -/
def Description : Beverage → String
  | simpleCoffee => "Простой кофе"
  | milk b => Description b ++ ", с молоком"
  | sugar b => Description b ++ ", с сахаром"
  | logged b => Description b

/-- `NewMilkDecorator(beverage)` stores the argument in the embedded
`BeverageDecorator` and returns the wrapper. -/
def NewMilkDecorator (beverage : Beverage) : Beverage :=
  milk beverage

/-- The `beverage` field of the embedded `BeverageDecorator` of a wrapper
(`none` for a non-wrapper). -/
def wrappedBeverage : Beverage → Option Beverage
  | simpleCoffee => none
  | milk b => some b
  | sugar b => some b
  | logged b => some b

end Beverage

/-! ## §3  The WebSocket echo server
    Source: `src/WEB - Клиент - сервер/http_https.md`, lines 178-215.

    ```go
    func handleConnection(w http.ResponseWriter, r *http.Request) {
        conn, err := upgrader.Upgrade(w, r, nil)
        if err != nil { ...; return }
        defer conn.Close()
        for {
            messageType, msg, err := conn.ReadMessage()
            if err != nil { ...; break }
            fmt.Println(...)
            conn.WriteMessage(messageType, msg) // echo
        }
    }
    ```
    We model an accepted connection (the `Upgrade` succeeded) by the sequence
    of results its successive `ReadMessage` calls yield. -/

/-- One result of `conn.ReadMessage()`: either a message with its gorilla
message type (an `int`) and payload bytes, or a read error. -/
inductive ReadResult : Type
  | msg (messageType : Int) (data : List Nat) : ReadResult
  | readErr : ReadResult
  deriving DecidableEq, Repr

/-- Whether a `ReadMessage` result is a successful message. -/
def ReadResult.isMsg : ReadResult → Bool
  | .msg _ _ => true
  | .readErr => false

/-- The `(messageType, msg)` pair a successful read carries (junk on error;
only ever used under `isMsg`). -/
def ReadResult.payload : ReadResult → Int × List Nat
  | .msg t d => (t, d)
  | .readErr => (0, [])

/-- The observable effects of `handleConnection` on one accepted connection:
the `WriteMessage` calls it performed (in order, with message type and bytes),
how many `ReadMessage` calls it made, and whether the deferred `Close` ran. -/
structure ConnTrace where
  writes : List (Int × List Nat)
  readsPerformed : Nat
  closed : Bool
  deriving DecidableEq, Repr

/-- The `for` loop of `handleConnection`: read; on error `break`, otherwise
`WriteMessage(messageType, msg)` and continue. Returns the writes performed
and the number of reads made. The argument lists the results the connection
yields to successive reads; a connection whose list is exhausted has yielded
no error yet, and the loop has then performed one read per element. -/
def echoLoop : List ReadResult → List (Int × List Nat) × Nat
  | [] => ([], 0)
  | .readErr :: _ => ([], 1)
  | .msg t d :: rest =>
      let r := echoLoop rest
      ((t, d) :: r.1, r.2 + 1)

/-- `handleConnection` on an accepted connection: runs the echo loop, then the
deferred `conn.Close()` runs. -/
def handleConnection (reads : List ReadResult) : ConnTrace :=
  let r := echoLoop reads
  { writes := r.1, readsPerformed := r.2, closed := true }

/-! ## §4  The channel-based Observer sketch
    Source: `src/Шаблоны проектирования/Observer в Golang.md`, lines 172-217.

    ```go
    type NewsAgency struct {
        subscribers chan<- string
        news        string
    }
    func NewNewsAgency(bufferSize int) *NewsAgency {
        subscribers := make(chan string, bufferSize)
        agency := &NewsAgency{subscribers: subscribers}
        go agency.listen()
        return agency
    }
    func (n *NewsAgency) Subscribe(observer func(string)) {
        go func() { for news := range n.subscribers { observer(news) } }()
    }
    func (n *NewsAgency) SetNews(news string) { n.news = news; n.subscribers <- news }
    func (n *NewsAgency) listen() { for news := range n.subscribers { } }
    ```

    All consuming goroutines — the agency's own `listen` goroutine started by
    `NewNewsAgency`, and one goroutine per `Subscribe` call — range over the
    one shared channel `subscribers`. Go channel semantics: every value sent
    is received by exactly one receiver. We model an execution of the sketch
    by a schedule assigning to each sent news item the consumer that receives
    it: consumer `0` is the `listen` goroutine, consumers `1..numSubscribers`
    are the subscriber goroutines (in order of their `Subscribe` calls). -/

namespace NewsAgency

/-- A schedule is a valid execution of the sketch with `numSubscribers`
subscribers when every sent message is received by one of the
`numSubscribers + 1` goroutines ranging over the shared channel (consumer `0`
being the agency's `listen` goroutine). -/
def validSchedule (numSubscribers : Nat) (schedule : Nat → Nat) : Prop :=
  ∀ k, schedule k ≤ numSubscribers

/-- The indices (into the list of messages passed to successive `SetNews`
calls) of the messages consumer `c` receives under `schedule`, when
`published.length` messages were sent. -/
def receivedIdx (schedule : Nat → Nat) (numSent : Nat) (c : Nat) : List Nat :=
  (List.range numSent).filter fun k => schedule k = c

/-- The news strings the callback of consumer `c` processes, in order, when
the strings of `published` were passed to successive `SetNews` calls and the
channel delivered according to `schedule`. (The `listen` goroutine, consumer
`0`, discards what it receives; subscribers `1..` pass it to their observer
callback.) -/
def received (schedule : Nat → Nat) (published : List String) (c : Nat) : List String :=
  (receivedIdx schedule published.length c).map fun k => published.getD k ""

end NewsAgency

/-! ## §5  The Singleton copies
    The Logger/Config singleton demonstration appears, with minor edits, in
    * `src/Design_patterns.md` lines 49-61 (`GetLogger`, `once.Do`),
    * `src/unnamed/part_001` lines 384-399 (`GetInstance`, `once.Do`),
    * `src/Design Patterns/Singleton в Golang.md` lines 113-125
      (`GetInstance`, `once.Do`),
    * `src/Patterns_programming.go` lines 31-37 (`GetBigApple`,
      lazy `if oneApple == nil` initialisation, no `sync.Once`).

    We model the heap by an allocation counter: `&Logger{}` returns the next
    fresh address. The package-level variable `instance` (`oneApple`) is a
    possibly-nil pointer, `none` standing for Go's `nil`. Calls are
    sequential, as in each snippet's `main`. -/

/-- State of the `sync.Once`-based singleton packages: the `once` guard, the
package-level `instance` pointer (Go `nil` initially), and the allocator. -/
structure OnceSingletonState where
  onceDone : Bool
  inst : Option Nat
  nextAddr : Nat
  deriving DecidableEq, Repr

/-- The initial package state: `once` has not fired, `instance` is `nil`. -/
def OnceSingletonState.init : OnceSingletonState :=
  { onceDone := false, inst := none, nextAddr := 0 }

/-- `GetLogger` of `Design_patterns.md` (identically `GetInstance` of
`src/unnamed/part_001` and of `Singleton в Golang.md` §2.2):
`once.Do(func() { instance = &Logger{} }); return instance`. Returns the
value of `instance` after the `once.Do`, paired with the new state. -/
def GetLogger (s : OnceSingletonState) : Option Nat × OnceSingletonState :=
  if s.onceDone then
    (s.inst, s)
  else
    (some s.nextAddr,
     { onceDone := true, inst := some s.nextAddr, nextAddr := s.nextAddr + 1 })

/-- State of the `Patterns_programming.go` singleton: the package-level
`oneApple` pointer and the allocator. -/
structure NilCheckSingletonState where
  oneApple : Option Nat
  nextAddr : Nat
  deriving DecidableEq, Repr

/-- The initial package state: `oneApple` is `nil`. -/
def NilCheckSingletonState.init : NilCheckSingletonState :=
  { oneApple := none, nextAddr := 0 }

/-- `GetBigApple` of `Patterns_programming.go`:
`if oneApple == nil { oneApple = &BigApple{size: 10} }; return oneApple`. -/
def GetBigApple (s : NilCheckSingletonState) : Option Nat × NilCheckSingletonState :=
  match s.oneApple with
  | none =>
      (some s.nextAddr, { oneApple := some s.nextAddr, nextAddr := s.nextAddr + 1 })
  | some a => (some a, s)

/-- The pointers returned by `n` successive calls of `GetLogger`, starting
from the initial package state. -/
def getLoggerTrace (n : Nat) : List (Option Nat) :=
  go n OnceSingletonState.init
where
  go : Nat → OnceSingletonState → List (Option Nat)
    | 0, _ => []
    | n + 1, s => let r := GetLogger s; r.1 :: go n r.2

/-- The pointers returned by `n` successive calls of `GetBigApple`, starting
from the initial package state. -/
def getBigAppleTrace (n : Nat) : List (Option Nat) :=
  go n NilCheckSingletonState.init
where
  go : Nat → NilCheckSingletonState → List (Option Nat)
    | 0, _ => []
    | n + 1, s => let r := GetBigApple s; r.1 :: go n r.2

/-- The package state of the `sync.Once` singleton after `n` calls of
`GetLogger`. -/
def getLoggerState : Nat → OnceSingletonState
  | 0 => OnceSingletonState.init
  | n + 1 => (GetLogger (getLoggerState n)).2

/-- The package state of the `Patterns_programming.go` singleton after `n`
calls of `GetBigApple`. -/
def getBigAppleState : Nat → NilCheckSingletonState
  | 0 => NilCheckSingletonState.init
  | n + 1 => (GetBigApple (getBigAppleState n)).2

/-! ## §6  The repository as a corpus of code fragments

    The remaining claims are about the repository's collection of Go code
    fragments as a whole.  A *fragment* is a fenced ```go code block of one of
    the markdown documents — including the two list-indented fenced blocks of
    `PostgreSQL/Транзакции в PostgreSQL.md` (lines 267-269 and line 273); the
    files under `unnamed/` follow the same fenced format where they contain
    Go at all — or, for the two unfenced documents
    (`Patterns_programming.go` and the second half of `unnamed/part_001`), a
    maximal snippet starting at its `package` clause.  The catalogue below
    lists every such fragment: its file, the first line of its code, its line
    count, the Go packages its `package` clauses declare, the repo-local
    packages its import clauses name (imports of the standard library and of
    published third-party modules such as gorilla/websocket or GORM are not
    repo-local), and whether its text uses `sync.Once`, `sync.Mutex`,
    `sync.WaitGroup` or a channel. -/

/-- One Go code fragment of the repository. -/
structure CodeFragment where
  file : String
  firstLine : Nat
  lineCount : Nat
  definesPackages : List String
  localImports : List String
  usesSyncOnce : Bool
  usesSyncMutex : Bool
  usesSyncWaitGroup : Bool
  usesChannel : Bool
  deriving DecidableEq, Repr

/-- Fragment catalogue, part 1. -/
def goFragmentsPart1 : List CodeFragment :=
  [⟨"DDD.md", 26, 5, [], [], false, false, false, false⟩,
  ⟨"DDD.md", 38, 4, [], [], false, false, false, false⟩,
  ⟨"DDD.md", 49, 5, [], [], false, false, false, false⟩,
  ⟨"DDD.md", 61, 4, [], [], false, false, false, false⟩,
  ⟨"DDD.md", 72, 8, [], [], false, false, false, false⟩,
  ⟨"DDD.md", 99, 3, [], [], false, false, false, false⟩,
  ⟨"DDD.md", 107, 8, [], [], false, false, false, false⟩,
  ⟨"DDD.md", 145, 10, [], [], false, false, false, false⟩,
  ⟨"Design_patterns.md", 42, 36, ["main"], [], true, false, false, false⟩,
  ⟨"Design_patterns.md", 85, 34, ["main"], [], false, false, false, false⟩,
  ⟨"Design_patterns.md", 126, 52, ["main"], [], false, false, false, false⟩,
  ⟨"Design_patterns.md", 184, 41, ["main"], [], false, false, false, false⟩,
  ⟨"Design_patterns.md", 232, 21, ["main"], [], false, false, false, false⟩,
  ⟨"Design_patterns.md", 260, 28, ["main"], [], false, false, false, false⟩,
  ⟨"Design_patterns.md", 294, 24, ["main"], [], false, false, false, false⟩,
  ⟨"Design_patterns.md", 328, 39, ["main"], [], false, false, false, false⟩,
  ⟨"Design_patterns.md", 376, 34, ["main"], [], false, false, false, false⟩,
  ⟨"Design_patterns.md", 416, 51, ["main"], [], false, false, false, false⟩,
  ⟨"WEB - Клиент - сервер/http_https.md", 178, 38, ["main"], [], false, false, false, false⟩,
  ⟨"WEB - Клиент - сервер/http_https.md", 262, 8, [], [], false, false, false, false⟩,
  ⟨"Golang/GORM (ORM).md", 48, 16, ["main"], [], false, false, false, false⟩,
  ⟨"Golang/GORM (ORM).md", 79, 8, [], [], false, false, false, false⟩,
  ⟨"Golang/GORM (ORM).md", 102, 8, [], [], false, false, false, false⟩,
  ⟨"Golang/GORM (ORM).md", 118, 12, [], [], false, false, false, false⟩,
  ⟨"Golang/GORM (ORM).md", 138, 13, [], [], false, false, false, false⟩,
  ⟨"Golang/GORM (ORM).md", 159, 7, [], [], false, false, false, false⟩,
  ⟨"Golang/GORM (ORM).md", 180, 6, [], [], false, false, false, false⟩,
  ⟨"Golang/GORM (ORM).md", 191, 14, [], [], false, false, false, false⟩,
  ⟨"Golang/GORM (ORM).md", 210, 8, [], [], false, false, false, false⟩,
  ⟨"Golang/GORM (ORM).md", 226, 15, [], [], false, false, false, false⟩,
  ⟨"Golang/GORM (ORM).md", 246, 11, [], [], false, false, false, false⟩,
  ⟨"Golang/GORM (ORM).md", 266, 7, [], [], false, false, false, false⟩,
  ⟨"Golang/GORM (ORM).md", 284, 36, [], [], false, false, false, false⟩,
  ⟨"Golang/GORM (ORM).md", 334, 8, [], [], false, false, false, false⟩,
  ⟨"Golang/GORM (ORM).md", 348, 8, [], [], false, false, false, false⟩]

/-- Fragment catalogue, part 2. -/
def goFragmentsPart2 : List CodeFragment :=
  [⟨"Golang/defer/Взаимодействие defer и именованного return в Golang.md", 19, 4, [], [], false, false, false, false⟩,
  ⟨"Golang/defer/Взаимодействие defer и именованного return в Golang.md", 37, 16, ["main"], [], false, false, false, false⟩,
  ⟨"Golang/defer/Взаимодействие defer и именованного return в Golang.md", 77, 16, ["main"], [], false, false, false, false⟩,
  ⟨"Golang/defer/Взаимодействие defer и именованного return в Golang.md", 112, 16, ["main"], [], false, false, false, false⟩,
  ⟨"Golang/defer/Взаимодействие defer и именованного return в Golang.md", 144, 17, ["main"], [], false, false, false, false⟩,
  ⟨"Golang/defer/Взаимодействие defer и именованного return в Golang.md", 181, 16, ["main"], [], false, false, false, false⟩,
  ⟨"Golang/defer/Взаимодействие defer и именованного return в Golang.md", 211, 16, ["main"], [], false, false, false, false⟩,
  ⟨"Golang/defer/Взаимодействие defer и именованного return в Golang.md", 248, 15, ["main"], [], false, false, false, false⟩,
  ⟨"Design Patterns/Builder в Golang.md", 40, 12, ["builder"], [], false, false, false, false⟩,
  ⟨"Design Patterns/Builder в Golang.md", 56, 42, [], [], false, false, false, false⟩,
  ⟨"Design Patterns/Builder в Golang.md", 102, 27, ["main"], ["builder"], false, false, false, false⟩,
  ⟨"Design Patterns/Builder в Golang.md", 144, 83, ["builder"], [], false, false, false, false⟩,
  ⟨"Design Patterns/Builder в Golang.md", 231, 34, ["main"], ["builder"], false, false, false, false⟩,
  ⟨"Design Patterns/Builder в Golang.md", 298, 64, ["httpbuilder"], [], false, false, false, false⟩,
  ⟨"Design Patterns/Builder в Golang.md", 366, 18, ["main"], ["httpbuilder"], false, false, false, false⟩,
  ⟨"Design Patterns/Builder в Golang.md", 397, 54, ["configbuilder"], [], false, false, false, false⟩,
  ⟨"Design Patterns/Builder в Golang.md", 455, 18, ["main"], ["configbuilder"], false, false, false, false⟩,
  ⟨"Design Patterns/Singleton в Golang.md", 41, 23, ["singleton"], [], false, false, false, false⟩,
  ⟨"Design Patterns/Singleton в Golang.md", 68, 15, ["main"], ["singleton"], false, false, false, false⟩,
  ⟨"Design Patterns/Singleton в Golang.md", 102, 24, ["singleton"], [], true, false, false, false⟩,
  ⟨"Design Patterns/Singleton в Golang.md", 136, 21, ["main"], ["singleton"], false, false, true, false⟩,
  ⟨"Design Patterns/Singleton в Golang.md", 175, 26, ["singleton"], [], false, true, false, false⟩,
  ⟨"Design Patterns/Singleton в Golang.md", 236, 26, ["logger"], [], true, false, false, false⟩,
  ⟨"Design Patterns/Singleton в Golang.md", 266, 10, ["main"], ["logger"], false, false, false, false⟩,
  ⟨"Design Patterns/Singleton в Golang.md", 282, 22, ["db"], [], true, false, false, false⟩,
  ⟨"Design Patterns/Singleton в Golang.md", 308, 13, ["main"], ["db"], false, false, false, false⟩,
  ⟨"Design Patterns/Singleton в Golang.md", 335, 20, ["main"], [], false, false, false, false⟩,
  ⟨"PostgreSQL/Транзакции в PostgreSQL.md", 48, 22, ["main"], [], false, false, false, false⟩,
  ⟨"PostgreSQL/Транзакции в PostgreSQL.md", 99, 58, ["main"], [], false, false, false, false⟩,
  ⟨"PostgreSQL/Транзакции в PostgreSQL.md", 175, 44, [], [], false, false, false, false⟩,
  ⟨"PostgreSQL/Транзакции в PostgreSQL.md", 231, 26, [], [], false, false, false, false⟩,
  ⟨"PostgreSQL/Транзакции в PostgreSQL.md", 267, 3, [], [], false, false, false, false⟩,
  ⟨"PostgreSQL/Транзакции в PostgreSQL.md", 273, 1, [], [], false, false, false, false⟩,
  ⟨"Шаблоны проектирования/Factory Method в Golang.md", 40, 6, ["factory"], [], false, false, false, false⟩,
  ⟨"Шаблоны проектирования/Factory Method в Golang.md", 50, 13, [], [], false, false, false, false⟩,
  ⟨"Шаблоны проектирования/Factory Method в Golang.md", 69, 11, [], [], false, false, false, false⟩,
  ⟨"Шаблоны проектирования/Factory Method в Golang.md", 84, 26, ["main"], ["factory"], false, false, false, false⟩]

/-- Fragment catalogue, part 3. -/
def goFragmentsPart3 : List CodeFragment :=
  [⟨"Шаблоны проектирования/Factory Method в Golang.md", 126, 51, ["factory"], [], false, false, false, false⟩,
  ⟨"Шаблоны проектирования/Factory Method в Golang.md", 181, 22, ["main"], ["factory"], false, false, false, false⟩,
  ⟨"Шаблоны проектирования/Factory Method в Golang.md", 238, 64, ["database"], [], false, false, false, false⟩,
  ⟨"Шаблоны проектирования/Factory Method в Golang.md", 306, 30, ["main"], ["database"], false, false, false, false⟩,
  ⟨"Шаблоны проектирования/Factory Method в Golang.md", 344, 34, ["logger"], [], false, false, false, false⟩,
  ⟨"Шаблоны проектирования/Factory Method в Golang.md", 382, 17, ["main"], ["logger"], false, false, false, false⟩,
  ⟨"Шаблоны проектирования/Observer в Golang.md", 41, 6, ["observer"], [], false, false, false, false⟩,
  ⟨"Шаблоны проектирования/Observer в Golang.md", 53, 40, [], [], false, false, false, false⟩,
  ⟨"Шаблоны проектирования/Observer в Golang.md", 99, 25, [], [], false, false, false, false⟩,
  ⟨"Шаблоны проектирования/Observer в Golang.md", 128, 28, ["main"], ["observer"], false, false, false, false⟩,
  ⟨"Шаблоны проектирования/Observer в Golang.md", 172, 46, ["observer"], [], false, false, false, true⟩,
  ⟨"Шаблоны проектирования/Observer в Golang.md", 222, 27, ["main"], ["observer"], false, false, false, false⟩,
  ⟨"Шаблоны проектирования/Observer в Golang.md", 285, 44, ["websocketobserver"], [], false, true, false, false⟩,
  ⟨"Шаблоны проектирования/Observer в Golang.md", 333, 19, ["main"], ["websocketobserver"], false, false, false, false⟩,
  ⟨"Шаблоны проектирования/Observer в Golang.md", 367, 35, ["logobserver"], [], false, false, false, false⟩,
  ⟨"Шаблоны проектирования/Observer в Golang.md", 406, 23, ["main"], ["logobserver"], false, false, false, false⟩,
  ⟨"Шаблоны проектирования/Observer в Golang.md", 509, 7, ["decorator"], [], false, false, false, false⟩,
  ⟨"Шаблоны проектирования/Observer в Golang.md", 520, 10, [], [], false, false, false, false⟩,
  ⟨"Шаблоны проектирования/Observer в Golang.md", 536, 50, [], [], false, false, false, false⟩,
  ⟨"Шаблоны проектирования/Observer в Golang.md", 590, 20, ["main"], ["decorator"], false, false, false, false⟩,
  ⟨"Шаблоны проектирования/Observer в Golang.md", 626, 33, ["decorator"], [], false, false, false, false⟩,
  ⟨"Шаблоны проектирования/Observer в Golang.md", 663, 14, ["main"], ["decorator"], false, false, false, false⟩,
  ⟨"Шаблоны проектирования/Observer в Golang.md", 713, 42, ["httpdecorator"], [], false, false, false, false⟩,
  ⟨"Шаблоны проектирования/Observer в Golang.md", 759, 28, ["main"], ["httpdecorator"], false, false, false, false⟩,
  ⟨"Шаблоны проектирования/Observer в Golang.md", 795, 35, ["logdecorator"], [], false, false, false, false⟩,
  ⟨"Шаблоны проектирования/Observer в Golang.md", 834, 13, ["main"], ["logdecorator"], false, false, false, false⟩,
  ⟨"Метрики и логирование/Grafana.md", 55, 33, ["main"], [], false, false, false, false⟩,
  ⟨"Метрики и логирование/Grafana.md", 247, 27, ["main"], [], false, false, false, false⟩,
  ⟨"Метрики и логирование/Grafana.md", 348, 34, ["main"], [], false, false, false, false⟩,
  ⟨"Метрики и логирование/Loki.md", 89, 48, ["main"], [], false, false, false, false⟩,
  ⟨"Метрики и логирование/Мониторинг и логирование.md", 48, 28, ["main"], [], false, false, false, false⟩,
  ⟨"Метрики и логирование/Мониторинг и логирование.md", 152, 48, ["main"], [], false, false, false, false⟩,
  ⟨"unnamed/part_001", 16, 21, [], [], false, false, false, false⟩,
  ⟨"unnamed/part_001", 45, 30, ["main"], [], false, false, false, false⟩,
  ⟨"unnamed/part_001", 89, 15, [], [], false, false, false, false⟩]

/-- Fragment catalogue, part 4. -/
def goFragmentsPart4 : List CodeFragment :=
  [⟨"unnamed/part_001", 109, 40, [], [], false, false, false, false⟩,
  ⟨"unnamed/part_001", 163, 37, [], [], false, false, false, false⟩,
  ⟨"unnamed/part_001", 211, 36, [], [], false, false, false, false⟩,
  ⟨"unnamed/part_001", 249, 32, [], [], false, false, false, false⟩,
  ⟨"unnamed/part_001", 293, 25, ["main"], [], false, false, false, false⟩,
  ⟨"unnamed/part_001", 320, 46, ["main"], [], false, false, false, false⟩,
  ⟨"unnamed/part_002", 16, 15, [], [], false, false, false, false⟩,
  ⟨"unnamed/part_002", 40, 15, [], [], false, false, false, false⟩,
  ⟨"unnamed/part_002", 57, 40, [], [], false, false, false, false⟩,
  ⟨"unnamed/part_002", 106, 37, [], [], false, false, false, false⟩,
  ⟨"unnamed/part_002", 152, 36, [], [], false, false, false, false⟩,
  ⟨"unnamed/part_002", 190, 32, [], [], false, false, false, false⟩,
  ⟨"unnamed/part_002", 234, 25, ["main"], [], false, false, false, false⟩,
  ⟨"unnamed/part_002", 261, 46, ["main"], [], false, false, false, false⟩,
  ⟨"unnamed/part_003", 62, 86, ["main"], [], false, false, false, false⟩,
  ⟨"unnamed/part_004", 22, 12, ["main"], [], false, false, false, false⟩,
  ⟨"unnamed/part_004", 49, 3, [], [], false, false, false, false⟩,
  ⟨"unnamed/part_004", 57, 2, [], [], false, false, false, false⟩,
  ⟨"unnamed/part_004", 68, 2, [], [], false, false, false, false⟩,
  ⟨"unnamed/part_004", 75, 8, [], [], false, false, false, false⟩,
  ⟨"unnamed/part_004", 92, 6, [], [], false, false, false, false⟩,
  ⟨"unnamed/part_004", 102, 1, [], [], false, false, false, false⟩,
  ⟨"unnamed/part_004", 112, 16, [], [], false, false, false, false⟩,
  ⟨"unnamed/part_004", 141, 12, [], [], false, false, false, false⟩,
  ⟨"unnamed/part_006", 42, 6, ["strategy"], [], false, false, false, false⟩,
  ⟨"unnamed/part_006", 54, 47, [], [], false, false, false, false⟩,
  ⟨"unnamed/part_006", 107, 19, [], [], false, false, false, false⟩,
  ⟨"unnamed/part_006", 130, 20, ["main"], ["strategy"], false, false, false, false⟩,
  ⟨"unnamed/part_006", 165, 106, ["strategy"], [], false, false, false, false⟩,
  ⟨"unnamed/part_006", 275, 22, ["main"], ["strategy"], false, false, false, false⟩,
  ⟨"unnamed/part_006", 331, 46, ["payment"], [], false, false, false, false⟩,
  ⟨"unnamed/part_006", 381, 24, ["main"], ["payment"], false, false, false, false⟩,
  ⟨"unnamed/part_006", 419, 54, ["formatter"], [], false, false, false, false⟩,
  ⟨"unnamed/part_006", 477, 33, ["main"], ["formatter"], false, false, false, false⟩,
  ⟨"Patterns_programming.go", 6, 15, ["main"], [], false, false, false, false⟩]

/-- Fragment catalogue, part 5. -/
def goFragmentsPart5 : List CodeFragment :=
  [⟨"Patterns_programming.go", 26, 19, ["main"], [], false, false, false, false⟩,
  ⟨"Patterns_programming.go", 50, 20, ["main"], [], false, false, false, false⟩,
  ⟨"Patterns_programming.go", 78, 25, ["main"], [], false, false, false, false⟩,
  ⟨"Patterns_programming.go", 110, 21, ["main"], [], false, false, false, false⟩,
  ⟨"Patterns_programming.go", 138, 23, ["main"], [], false, false, false, false⟩,
  ⟨"Patterns_programming.go", 167, 23, ["main"], [], false, false, false, false⟩,
  ⟨"Patterns_programming.go", 196, 23, ["main"], [], false, false, false, false⟩,
  ⟨"unnamed/part_001", 384, 24, ["logger"], [], true, false, false, false⟩,
  ⟨"unnamed/part_001", 411, 17, ["main"], ["logger"], false, false, false, false⟩,
  ⟨"unnamed/part_001", 436, 29, ["factory"], [], false, false, false, false⟩,
  ⟨"unnamed/part_001", 467, 13, ["main"], ["factory"], false, false, false, false⟩,
  ⟨"unnamed/part_001", 488, 28, ["observer"], [], false, false, false, false⟩,
  ⟨"unnamed/part_001", 518, 14, ["main"], ["observer"], false, false, false, false⟩,
  ⟨"unnamed/part_001", 543, 41, ["decorator"], [], false, false, false, false⟩,
  ⟨"unnamed/part_001", 587, 13, ["main"], ["decorator"], false, false, false, false⟩,
  ⟨"unnamed/part_001", 610, 37, ["strategy"], [], false, false, false, false⟩,
  ⟨"unnamed/part_001", 649, 14, ["main"], ["strategy"], false, false, false, false⟩,
  ⟨"unnamed/part_001", 671, 23, ["adapter"], [], false, false, false, false⟩,
  ⟨"unnamed/part_001", 696, 11, ["main"], ["adapter"], false, false, false, false⟩,
  ⟨"unnamed/part_001", 715, 25, ["proxy"], [], false, false, false, false⟩,
  ⟨"unnamed/part_001", 742, 13, ["main"], ["proxy"], false, false, false, false⟩]

/-- All 163 Go code fragments of the repository, file by file. -/
def goFragments : List CodeFragment :=
  goFragmentsPart1 ++ goFragmentsPart2 ++ goFragmentsPart3 ++ goFragmentsPart4 ++ goFragmentsPart5

/-- A fragment uses some inter-goroutine coordination mechanism other than
`sync.Once`. -/
def CodeFragment.usesOtherCoordination (f : CodeFragment) : Bool :=
  f.usesSyncMutex || f.usesSyncWaitGroup || f.usesChannel

/-- The repo-local package `pkg` is declared by some fragment of file
`file`. -/
def packageDefinedInFile (file pkg : String) : Bool :=
  goFragments.any fun g => g.file = file && g.definesPackages.contains pkg

/-- A fragment is self-contained up to its own file: every repo-local package
it imports is declared by a fragment of the same file. -/
def CodeFragment.selfContained (f : CodeFragment) : Bool :=
  f.localImports.all fun p => packageDefinedInFile f.file p

/-! ## §7  The three snippets' literal text

    For the length claim about the three "closest candidate" snippets, we
    embed the literal lines of each snippet's fenced code block (braces are
    written with their `\x7b`/`\x7d` character escapes, tabs as `\t`):
    * the channel-based Observer sketch: `src/Шаблоны проектирования/Observer
      в Golang.md`, the code block on lines 172-217;
    * the WebSocket echo server: `src/WEB - Клиент - сервер/http_https.md`,
      the code block on lines 178-215;
    * the "func transferMoney(db *gorm.DB, fromID, toID uint, amount float64) error \x7b",
   "    tx := db.Begin()",
   "    if tx.Error != nil \x7b",
   "        return tx.Error",
   "    \x7d",
   "",
   "    defer func() \x7b",
   "        if r := recover(); r != nil \x7b",
   "            tx.Rollback()",
   "        \x7d",
   "    \x7d()",
   "",
   "    var fromUser, toUser User",
   "    if err := tx.First(&fromUser, fromID).Error; err != nil \x7b",
   "        tx.Rollback()",
   "        return err",
   "    \x7d",
   "    if err := tx.First(&toUser, toID).Error; err != nil \x7b",
   "        tx.Rollback()",
   "        return err",
   "    \x7d",
   "",
   "    fromUser.Balance -= amount",
   "    toUser.Balance += amount",
   "",
   "    if err := tx.Save(&fromUser).Error; err != nil \x7b",
   "        tx.Rollback()",
   "        return err",
   "    \x7d",
   "    if err := tx.Save(&toUser).Error; err != nil \x7b",
   "        tx.Rollback()",
   "        return err",
   "    \x7d",
   "",
   "    return tx.Commit().Error",
   "\x7d" transaction snippet: `src/Golang/"func transferMoney(db *gorm.DB, fromID, toID uint, amount float64) error \x7b",
   "    tx := db.Begin()",
   "    if tx.Error != nil \x7b",
   "        return tx.Error",
   "    \x7d",
   "",
   "    defer func() \x7b",
   "        if r := recover(); r != nil \x7b",
   "            tx.Rollback()",
   "        \x7d",
   "    \x7d()",
   "",
   "    var fromUser, toUser User",
   "    if err := tx.First(&fromUser, fromID).Error; err != nil \x7b",
   "        tx.Rollback()",
   "        return err",
   "    \x7d",
   "    if err := tx.First(&toUser, toID).Error; err != nil \x7b",
   "        tx.Rollback()",
   "        return err",
   "    \x7d",
   "",
   "    fromUser.Balance -= amount",
   "    toUser.Balance += amount",
   "",
   "    if err := tx.Save(&fromUser).Error; err != nil \x7b",
   "        tx.Rollback()",
   "        return err",
   "    \x7d",
   "    if err := tx.Save(&toUser).Error; err != nil \x7b",
   "        tx.Rollback()",
   "        return err",
   "    \x7d",
   "",
   "    return tx.Commit().Error",
   "\x7d" (ORM).md`, the code
      block on lines 284-319. -/

/-- The lines of the Observer sketch's code block (file lines 172-217). -/
def observerSketchLines : List String :=
  ["package observer",
   "",
   "import (",
   "    \"fmt\"",
   ")",
   "",
   "// NewsAgency — субъект с асинхронным уведомлением",
   "type NewsAgency struct \x7b",
   "    subscribers chan<- string // Канал для отправки новостей",
   "    news        string",
   "\x7d",
   "",
   "// NewNewsAgency — конструктор для агентства новостей",
   "func NewNewsAgency(bufferSize int) *NewsAgency \x7b",
   "    subscribers := make(chan string, bufferSize)",
   "    agency := &NewsAgency\x7bsubscribers: subscribers\x7d",
   "    go agency.listen() // Запускаем горутину для прослушивания",
   "    return agency",
   "\x7d",
   "",
   "// Subscribe — подписка наблюдателя",
   "func (n *NewsAgency) Subscribe(observer func(string)) \x7b",
   "    go func() \x7b",
   "        for news := range n.subscribers \x7b",
   "            observer(news)",
   "        \x7d",
   "    \x7d()",
   "\x7d",
   "",
   "// Unsubscribe — отписка наблюдателя (в этом примере простая, без явного удаления)",
   "func (n *NewsAgency) Unsubscribe() \x7b",
   "    close(n.subscribers)",
   "\x7d",
   "",
   "// SetNews — установка новой новости и асинхронное уведомление",
   "func (n *NewsAgency) SetNews(news string) \x7b",
   "    n.news = news",
   "    n.subscribers <- news",
   "\x7d",
   "",
   "// listen — горутина для прослушивания и рассылки",
   "func (n *NewsAgency) listen() \x7b",
   "    for news := range n.subscribers \x7b",
   "        // Здесь можно добавить логику рассылки",
   "    \x7d",
   "\x7d"]

/-- The lines of the WebSocket server's code block (file lines 178-215). -/
def websocketServerLines : List String :=
  ["package main",
   "",
   "import (",
   "\t\"fmt\"",
   "\t\"net/http\"",
   "\t\"github.com/gorilla/websocket\"",
   ")",
   "",
   "var upgrader = websocket.Upgrader\x7b",
   "\tCheckOrigin: func(r *http.Request) bool \x7b",
   "\t\treturn true",
   "\t\x7d,",
   "\x7d",
   "",
   "func handleConnection(w http.ResponseWriter, r *http.Request) \x7b",
   "\tconn, err := upgrader.Upgrade(w, r, nil)",
   "\tif err != nil \x7b",
   "\t\tfmt.Println(\"Ошибка при обновлении соединения:\", err)",
   "\t\treturn",
   "\t\x7d",
   "\tdefer conn.Close()",
   "",
   "\tfor \x7b",
   "\t\tmessageType, msg, err := conn.ReadMessage()",
   "\t\tif err != nil \x7b",
   "\t\t\tfmt.Println(\"Ошибка при чтении сообщения:\", err)",
   "\t\t\tbreak",
   "\t\t\x7d",
   "\t\tfmt.Println(\"Получено сообщение:\", string(msg))",
   "\t\tconn.WriteMessage(messageType, msg) // Отправляем обратно (echo)",
   "\t\x7d",
   "\x7d",
   "",
   "func main() \x7b",
   "\thttp.HandleFunc(\"/ws\", handleConnection)",
   "\tfmt.Println(\"Сервер запущен на :8080\")",
   "\thttp.ListenAndServe(\":8080\", nil)",
   "\x7d"]

/-- The lines of the `transferMoney` code block (file lines 284-319). -/
def gormSnippetLines : List String :=
  ["func transferMoney(db *gorm.DB, fromID, toID uint, amount float64) error \x7b",
   "    tx := db.Begin()",
   "    if tx.Error != nil \x7b",
   "        return tx.Error",
   "    \x7d",
   "",
   "    defer func() \x7b",
   "        if r := recover(); r != nil \x7b",
   "            tx.Rollback()",
   "        \x7d",
   "    \x7d()",
   "",
   "    var fromUser, toUser User",
   "    if err := tx.First(&fromUser, fromID).Error; err != nil \x7b",
   "        tx.Rollback()",
   "        return err",
   "    \x7d",
   "    if err := tx.First(&toUser, toID).Error; err != nil \x7b",
   "        tx.Rollback()",
   "        return err",
   "    \x7d",
   "",
   "    fromUser.Balance -= amount",
   "    toUser.Balance += amount",
   "",
   "    if err := tx.Save(&fromUser).Error; err != nil \x7b",
   "        tx.Rollback()",
   "        return err",
   "    \x7d",
   "    if err := tx.Save(&toUser).Error; err != nil \x7b",
   "        tx.Rollback()",
   "        return err",
   "    \x7d",
   "",
   "    return tx.Commit().Error",
   "\x7d"]

/-- A line of a snippet is blank when it holds no character at all. -/
def blankLine (l : String) : Bool :=
  l.isEmpty

/-- The number of non-blank lines of a snippet. -/
def nonBlankCount (lines : List String) : Nat :=
  (lines.filter fun l => !blankLine l).length

/-! ## §8  The GORM transaction snippet
    Source: `src/Golang/GORM (ORM).md`, lines 284-319.

    ```go
    func transferMoney(db *gorm.DB, fromID, toID uint, amount float64) error {
        tx := db.Begin()
        if tx.Error != nil { return tx.Error }
        defer func() { if r := recover(); r != nil { tx.Rollback() } }()
        var fromUser, toUser User
        if err := tx.First(&fromUser, fromID).Error; err != nil { tx.Rollback(); return err }
        if err := tx.First(&toUser, toID).Error; err != nil { tx.Rollback(); return err }
        fromUser.Balance -= amount
        toUser.Balance += amount
        if err := tx.Save(&fromUser).Error; err != nil { tx.Rollback(); return err }
        if err := tx.Save(&toUser).Error; err != nil { tx.Rollback(); return err }
        return tx.Commit().Error
    }
    ```

    The `User` model of the same file has fields `ID uint` and
    `Balance float64`; we model the users table as an association list from id
    to balance, transaction writes as updates of a transaction-local copy that
    `Commit` publishes and `Rollback` discards, and the fallibility of
    `Begin`/`First`/`Save`/`Commit` by an environment saying which of them
    fail. `recover()` is `nil` in every execution we model (no panics), so the
    deferred closure never rolls back. -/

/-- The users table: `(ID, Balance)` rows. -/
abbrev UsersTable := List (Nat × ℚ)

/-- The sum of all balances in the table. -/
def totalBalance (t : UsersTable) : ℚ :=
  (t.map Prod.snd).sum

/-- `tx.First(&u, id)`: the balance of the first row with the given id, or
`none` (GORM's `ErrRecordNotFound`) when there is no such row. -/
def firstUser (t : UsersTable) (id : Nat) : Option ℚ :=
  (t.find? fun row => row.1 = id).map Prod.snd

/-- `tx.Save(&u)`: update every row whose id is `u.ID` to `u`'s balance;
GORM inserts the row when it is not present. -/
def saveUser (t : UsersTable) (id : Nat) (balance : ℚ) : UsersTable :=
  if t.any fun row => row.1 = id then
    t.map fun row => if row.1 = id then (id, balance) else row
  else
    t ++ [(id, balance)]

/-- Which of the fallible database operations fail in a given execution:
`db.Begin` as a whole, `tx.First` per looked-up id (a driver error beyond a
missing row), `tx.Save` per saved id, and `tx.Commit`. -/
structure DBEnv where
  table : UsersTable
  beginFails : Bool
  firstFailIDs : List Nat
  saveFailIDs : List Nat
  commitFails : Bool
  deriving DecidableEq, Repr

/-- The errors `transferMoney` can return (Go `error` values; `none` below is
Go's `nil` error). -/
inductive TransferErr : Type
  | beginErr : TransferErr
  | recordNotFound (id : Nat) : TransferErr
  | firstErr (id : Nat) : TransferErr
  | saveErr (id : Nat) : TransferErr
  | commitErr : TransferErr
  deriving DecidableEq, Repr

/-- What one call of `transferMoney` did: the returned `error`, whether
`tx.Rollback` was called, whether `tx.Commit` was called (`committed`; when
the commit itself fails the database still discards the transaction and the
table is unchanged), and the committed users table afterwards. -/
structure TransferOutcome where
  result : Option TransferErr
  rolledBack : Bool
  committed : Bool
  table : UsersTable
  deriving DecidableEq, Repr

/-- `tx.First(&u, id)` with its error: fails with the environment's driver
error for `id` when configured, with `ErrRecordNotFound` when the row is
missing, and yields the row's balance otherwise. -/
def txFirst (env : DBEnv) (id : Nat) : Except TransferErr ℚ :=
  if id ∈ env.firstFailIDs then .error (.firstErr id)
  else match firstUser env.table id with
    | none => .error (.recordNotFound id)
    | some b => .ok b

/-- `transferMoney(db, fromID, toID, amount)`, line for line. -/
def transferMoney (env : DBEnv) (fromID toID : Nat) (amount : ℚ) : TransferOutcome :=
  if env.beginFails then
    { result := some .beginErr, rolledBack := false, committed := false,
      table := env.table }
  else
    match txFirst env fromID with
    | .error e =>
        { result := some e, rolledBack := true, committed := false,
          table := env.table }
    | .ok fromBalance =>
      match txFirst env toID with
      | .error e =>
          { result := some e, rolledBack := true, committed := false,
            table := env.table }
      | .ok toBalance =>
        -- fromUser.Balance -= amount; toUser.Balance += amount
        let fromBalance2 := fromBalance - amount
        let toBalance2 := toBalance + amount
        if fromID ∈ env.saveFailIDs then
          { result := some (.saveErr fromID), rolledBack := true,
            committed := false, table := env.table }
        else
          let txTable1 := saveUser env.table fromID fromBalance2
          if toID ∈ env.saveFailIDs then
            { result := some (.saveErr toID), rolledBack := true,
              committed := false, table := env.table }
          else
            let txTable2 := saveUser txTable1 toID toBalance2
            if env.commitFails then
              { result := some .commitErr, rolledBack := false,
                committed := true, table := env.table }
            else
              { result := none, rolledBack := false, committed := true,
                table := txTable2 }


/-- The full observable behaviour of `transferMoney` (the amended claim C8):
when `db.Begin` fails the error is returned with neither rollback nor commit;
when a lookup or save fails the transaction is rolled back, the error
returned, the table untouched; `tx.Commit` is called exactly when both
lookups and both saves succeeded, and a successful commit updates the two
balances — conserving the total when `fromID ≠ toID`, while a self-transfer
(`fromID = toID`) lets the second save overwrite the first and increases the
account (and the total) by `amount`. -/
def transferMoneySpec (env : DBEnv) (fromID toID : Nat) (amount : ℚ) : Prop :=
  (env.beginFails = true →
    transferMoney env fromID toID amount =
      { result := some .beginErr, rolledBack := false, committed := false,
        table := env.table }) ∧
  (env.beginFails = false →
    (∀ e, txFirst env fromID = .error e →
      transferMoney env fromID toID amount =
        { result := some e, rolledBack := true, committed := false,
          table := env.table }) ∧
    (∀ bf, txFirst env fromID = .ok bf →
      (∀ e, txFirst env toID = .error e →
        transferMoney env fromID toID amount =
          { result := some e, rolledBack := true, committed := false,
            table := env.table }) ∧
      (∀ bt, txFirst env toID = .ok bt →
        (fromID ∈ env.saveFailIDs →
          transferMoney env fromID toID amount =
            { result := some (.saveErr fromID), rolledBack := true,
              committed := false, table := env.table }) ∧
        (fromID ∉ env.saveFailIDs → toID ∈ env.saveFailIDs →
          transferMoney env fromID toID amount =
            { result := some (.saveErr toID), rolledBack := true,
              committed := false, table := env.table }) ∧
        (fromID ∉ env.saveFailIDs → toID ∉ env.saveFailIDs →
          env.commitFails = true →
          transferMoney env fromID toID amount =
            { result := some .commitErr, rolledBack := false,
              committed := true, table := env.table }) ∧
        (fromID ∉ env.saveFailIDs → toID ∉ env.saveFailIDs →
          env.commitFails = false →
          (transferMoney env fromID toID amount).result = none ∧
          (transferMoney env fromID toID amount).rolledBack = false ∧
          (transferMoney env fromID toID amount).committed = true ∧
          (fromID ≠ toID →
            totalBalance (transferMoney env fromID toID amount).table
              = totalBalance env.table ∧
            firstUser (transferMoney env fromID toID amount).table fromID
              = some (bf - amount) ∧
            firstUser (transferMoney env fromID toID amount).table toID
              = some (bt + amount)) ∧
          (fromID = toID →
            totalBalance (transferMoney env fromID toID amount).table
              = totalBalance env.table + amount ∧
            firstUser (transferMoney env fromID toID amount).table toID
              = some (bt + amount))))))

/-! ## §9  Supporting lemmas -/

/-- The `writes` component of the echo loop: exactly the messages read before
the first error, in order, with their message types. -/
theorem echoLoop_writes (reads : List ReadResult) :
    (echoLoop reads).1 = (reads.takeWhile ReadResult.isMsg).map ReadResult.payload := by
  induction reads with
  | nil => rfl
  | cons r rest ih =>
    cases r with
    | msg t d => simpa [echoLoop, List.takeWhile_cons, ReadResult.isMsg,
        ReadResult.payload] using ih
    | readErr => simp [echoLoop, List.takeWhile_cons, ReadResult.isMsg]

/-- The number of `ReadMessage` calls the echo loop performs: one per listed
result up to and including the first error. -/
theorem echoLoop_readsPerformed (reads : List ReadResult) :
    (echoLoop reads).2 =
      min (reads.findIdx (fun r => !r.isMsg) + 1) reads.length := by
  induction reads with
  | nil => rfl
  | cons r rest ih =>
    cases r with
    | msg t d =>
        simp only [echoLoop, List.findIdx_cons, ReadResult.isMsg, Bool.not_true,
          cond_false, List.length_cons, ih]
        omega
    | readErr =>
        simp [echoLoop, List.findIdx_cons, ReadResult.isMsg]

/-- After its first call, the `sync.Once` singleton's `go`-helper keeps
returning the stored pointer without touching the state. -/
theorem getLoggerTrace_go_steady (n a m : Nat) :
    getLoggerTrace.go n ⟨true, some a, m⟩ = List.replicate n (some a) := by
  induction n with
  | zero => rfl
  | succ n ih => simp [getLoggerTrace.go, GetLogger, ih, List.replicate_succ]

/-- The nil-check singleton's `go`-helper likewise keeps returning the stored
pointer. -/
theorem getBigAppleTrace_go_steady (n a m : Nat) :
    getBigAppleTrace.go n ⟨some a, m⟩ = List.replicate n (some a) := by
  induction n with
  | zero => rfl
  | succ n ih => simp [getBigAppleTrace.go, GetBigApple, ih, List.replicate_succ]

/-- All `GetLogger` calls return the pointer allocated by the first call. -/
theorem getLoggerTrace_eq_replicate (n : Nat) :
    getLoggerTrace n = List.replicate n (some 0) := by
  cases n with
  | zero => rfl
  | succ n =>
      show getLoggerTrace.go (n + 1) OnceSingletonState.init = _
      simp [getLoggerTrace.go, GetLogger, OnceSingletonState.init,
        getLoggerTrace_go_steady, List.replicate_succ]

/-- All `GetBigApple` calls return the pointer allocated by the first call. -/
theorem getBigAppleTrace_eq_replicate (n : Nat) :
    getBigAppleTrace n = List.replicate n (some 0) := by
  cases n with
  | zero => rfl
  | succ n =>
      show getBigAppleTrace.go (n + 1) NilCheckSingletonState.init = _
      simp [getBigAppleTrace.go, GetBigApple, NilCheckSingletonState.init,
        getBigAppleTrace_go_steady, List.replicate_succ]

/-- After at least one call, the `sync.Once` singleton's package state is
frozen: `once` has fired, `instance` holds the first allocation, the
allocator advanced once. -/
theorem getLoggerState_steady (n : Nat) (h : 1 ≤ n) :
    getLoggerState n = ⟨true, some 0, 1⟩ := by
  induction n with
  | zero => omega
  | succ n ih =>
      cases n with
      | zero => rfl
      | succ m =>
          show (GetLogger (getLoggerState (m + 1))).2 = _
          rw [ih (by omega)]; rfl

/-- After at least one call, the nil-check singleton's package state is
likewise frozen. -/
theorem getBigAppleState_steady (n : Nat) (h : 1 ≤ n) :
    getBigAppleState n = ⟨some 0, 1⟩ := by
  induction n with
  | zero => omega
  | succ n ih =>
      cases n with
      | zero => rfl
      | succ m =>
          show (GetBigApple (getBigAppleState (m + 1))).2 = _
          rw [ih (by omega)]; rfl

/-! ## §10  The claims -/

/-- Claim C9: in the defer/named-return example, `getValue()` returns `15`:
the body sets the named result to `5` and the deferred closure runs after the
`return` statement but before the function completes, adding `10`, so the
caller observes `15`. -/
theorem getValue_returns_fifteen : getValue = 15 := rfl

/-- Claim C10: `MilkDecorator` is a uniform wrapper: for every `Beverage` `b`,
`NewMilkDecorator(b).Cost()` is `b.Cost() + 0.5`, its `Description()` is
`b.Description()` followed by `", с молоком"`, and wrapping leaves the
underlying beverage itself unchanged (the wrapper stores `b` as is). -/
theorem milkDecorator_uniform_wrapper (b : Beverage) :
    (Beverage.NewMilkDecorator b).Cost = b.Cost + 1/2 ∧
    (Beverage.NewMilkDecorator b).Description = b.Description ++ ", с молоком" ∧
    (Beverage.NewMilkDecorator b).wrappedBeverage = some b :=
  ⟨rfl, rfl, rfl⟩

/-- Claim C1: the WebSocket server is an echo server: on every accepted
connection, each message successfully read by `conn.ReadMessage` is written
back unchanged with the same message type, in the order received; the loop
stops exactly at the first read error (it performs one read per message plus
the erroring read, and no more), and the deferred `Close` then runs. -/
theorem handleConnection_is_echo_server (reads : List ReadResult) :
    (handleConnection reads).writes =
        (reads.takeWhile ReadResult.isMsg).map ReadResult.payload ∧
    (handleConnection reads).readsPerformed =
        min (reads.findIdx (fun r => !r.isMsg) + 1) reads.length ∧
    (handleConnection reads).closed = true :=
  ⟨echoLoop_writes reads, echoLoop_readsPerformed reads, rfl⟩

/-- Claim C4: the three copies of the design-patterns catalogue carry
behaviourally equivalent Singleton snippets: the `sync.Once` implementation
(`GetLogger` in `Design_patterns.md`, `GetInstance` in `unnamed/part_001`)
and the nil-check implementation (`GetBigApple` in `Patterns_programming.go`)
return, for every number `n` of sequential calls, identical traces of
pointers — always the instance allocated at the first call. -/
theorem singleton_copies_equivalent (n : Nat) :
    getLoggerTrace n = getBigAppleTrace n ∧
    getLoggerTrace n = List.replicate n (some 0) := by
  rw [getLoggerTrace_eq_replicate, getBigAppleTrace_eq_replicate]
  exact ⟨rfl, rfl⟩

/-- Claim C5: the Logger example is a singleton: over any sequence of calls,
any two calls of `GetLogger` (or of `GetBigApple` in the duplicated copy)
return the same pointer, namely the instance allocated at the first call, and
after the first call the package-level instance variable is set and never
changes again. -/
theorem singleton_unique_instance (n : Nat) (x y : Option Nat)
    (hx : x ∈ getLoggerTrace n ∨ x ∈ getBigAppleTrace n)
    (hy : y ∈ getLoggerTrace n ∨ y ∈ getBigAppleTrace n) :
    x = y ∧ x = some 0 ∧
    (1 ≤ n → getLoggerState n = ⟨true, some 0, 1⟩ ∧
             getBigAppleState n = ⟨some 0, 1⟩) := by
  have hx0 : x = some 0 := by
    rcases hx with h | h
    · rw [getLoggerTrace_eq_replicate] at h; exact List.eq_of_mem_replicate h
    · rw [getBigAppleTrace_eq_replicate] at h; exact List.eq_of_mem_replicate h
  have hy0 : y = some 0 := by
    rcases hy with h | h
    · rw [getLoggerTrace_eq_replicate] at h; exact List.eq_of_mem_replicate h
    · rw [getBigAppleTrace_eq_replicate] at h; exact List.eq_of_mem_replicate h
  exact ⟨hx0.trans hy0.symm, hx0,
    fun h => ⟨getLoggerState_steady n h, getBigAppleState_steady n h⟩⟩

/-- Witness for claim C5, at `n = 2` and the pointer both calls return. -/
theorem singleton_unique_instance_witness :
    (some 0 : Option Nat) = some 0 ∧ (some 0 : Option Nat) = some 0 ∧
    (1 ≤ 2 → getLoggerState 2 = ⟨true, some 0, 1⟩ ∧
             getBigAppleState 2 = ⟨some 0, 1⟩) :=
  singleton_unique_instance 2 (some 0) (some 0)
    (Or.inl (by decide)) (Or.inl (by decide))

set_option maxRecDepth 40000

/-- Counterexample to claim C6 as stated: the channel-based Observer sketch's
code block spans 46 lines, which is not fewer than 40. -/
theorem observerSketch_not_under_forty_lines :
    observerSketchLines.length = 46 ∧ ¬ observerSketchLines.length < 40 := by
  constructor
  · rfl
  · intro h
    simp only [List.length] at h
    omega

/-- Claim C6 (amended): the GORM transaction snippet (36 lines) and the
WebSocket echo server (38 lines) are each fewer than 40 lines; the Observer
sketch spans 46 lines, and counting only non-blank lines all three are fewer
than 40 (31, 33 and 39 respectively). -/
theorem three_snippets_line_counts :
    gormSnippetLines.length = 36 ∧ gormSnippetLines.length < 40 ∧
    websocketServerLines.length = 38 ∧ websocketServerLines.length < 40 ∧
    observerSketchLines.length = 46 ∧
    nonBlankCount gormSnippetLines = 31 ∧
    nonBlankCount websocketServerLines = 33 ∧
    nonBlankCount observerSketchLines = 39 ∧
    nonBlankCount observerSketchLines < 40 := by
  refine ⟨rfl, by decide, rfl, by decide, rfl, rfl, rfl, rfl, by decide⟩

/-- Counterexample to claim C3 as stated: it is not the case that exactly one
code fragment of the repository demonstrates `sync.Once` with no other
fragment using any other inter-goroutine coordination mechanism — five
fragments use `sync.Once`, and fragments using `sync.Mutex`,
`sync.WaitGroup` and a channel exist besides. -/
theorem syncOnce_not_unique :
    ¬ ((goFragments.filter fun f => f.usesSyncOnce).length = 1 ∧
       ∀ f ∈ goFragments, f.usesOtherCoordination = false) := by
  intro h
  have h1 := h.1
  revert h1
  decide

/-- Claim C3 (amended): the `sync.Once` singleton demonstration is duplicated
across five fragments (in `Design_patterns.md`, three sections of `Design
Patterns/Singleton в Golang.md`, and `unnamed/part_001`), and the only other
inter-goroutine coordination mechanisms anywhere in the repository are a
`sync.Mutex` in two fragments, a `sync.WaitGroup` in one, and a (buffered)
channel in one (the Observer sketch). -/
theorem coordination_inventory :
    (goFragments.filter fun f => f.usesSyncOnce).length = 5 ∧
    (goFragments.filter fun f => f.usesSyncMutex).length = 2 ∧
    (goFragments.filter fun f => f.usesSyncWaitGroup).length = 1 ∧
    (goFragments.filter fun f => f.usesChannel).length = 1 ∧
    (goFragments.filter fun f =>
        f.usesSyncOnce || f.usesOtherCoordination).length = 9 := by
  refine ⟨?_, ?_, ?_, ?_, ?_⟩ <;> decide

/-- Claim C7: every code fragment of the repository is a self-contained
pedagogical example: each repo-local package a fragment imports is declared
by a fragment of the same file (so no fragment depends on another file's
code), and the fragments are typically under 100 lines — all 163 are at most
106 lines and all but one are under 100. -/
theorem fragments_self_contained :
    (∀ f ∈ goFragments, f.selfContained = true) ∧
    (∀ f ∈ goFragments, f.lineCount ≤ 106) ∧
    (goFragments.filter fun f => 100 ≤ f.lineCount).length = 1 := by
  refine ⟨?_, ?_, ?_⟩ <;> decide

/-- Counterexample to claim C2 as stated: the sketch is not a broadcast
pub/sub. In the valid execution with one subscriber in which the agency's own
`listen` goroutine (consumer `0`) receives the single published message, the
subscriber's callback never sees it. -/
theorem newsAgency_not_broadcast :
    ¬ (∀ (numSubscribers : Nat) (schedule : Nat → Nat),
        NewsAgency.validSchedule numSubscribers schedule →
        ∀ (published : List String) (c : Nat), 1 ≤ c → c ≤ numSubscribers →
        ∀ m ∈ published, m ∈ NewsAgency.received schedule published c) := by
  intro h
  have hmem := h 1 (fun _ => 0) (fun _k => Nat.zero_le 1) ["Срочно"] 1 le_rfl le_rfl
    "Срочно" (by simp)
  simp [NewsAgency.received, NewsAgency.receivedIdx] at hmem

/-- Claim C2 (amended): the channel distributes rather than broadcasts: in
every valid execution, each message passed to `SetNews` is received by
exactly one of the goroutines ranging over the shared channel (the agency's
`listen` goroutine or one of the subscribers), and the receptions of all the
consumers together partition the published messages. -/
theorem newsAgency_distributes (numSubscribers : Nat) (schedule : Nat → Nat)
    (h : NewsAgency.validSchedule numSubscribers schedule)
    (published : List String) :
    (∀ k < published.length, ∃! c, c ≤ numSubscribers ∧
        k ∈ NewsAgency.receivedIdx schedule published.length c) ∧
    ∑ c in Finset.range (numSubscribers + 1),
        (NewsAgency.receivedIdx schedule published.length c).length
      = published.length := by
  constructor
  · intro k hk
    refine ⟨schedule k, ⟨h k, ?_⟩, ?_⟩
    · simp [NewsAgency.receivedIdx, hk]
    · rintro c ⟨-, hmem⟩
      simp [NewsAgency.receivedIdx] at hmem
      exact hmem.2.symm
  · generalize published.length = n
    induction n with
    | zero => simp [NewsAgency.receivedIdx]
    | succ n ih =>
        have hstep : ∀ c, (NewsAgency.receivedIdx schedule (n + 1) c).length
            = (NewsAgency.receivedIdx schedule n c).length
              + if schedule n = c then 1 else 0 := by
          intro c
          simp only [NewsAgency.receivedIdx, List.range_succ, List.filter_append]
          by_cases hc : schedule n = c <;> simp [hc]
        calc ∑ c in Finset.range (numSubscribers + 1),
                (NewsAgency.receivedIdx schedule (n + 1) c).length
            = ∑ c in Finset.range (numSubscribers + 1),
                ((NewsAgency.receivedIdx schedule n c).length
                  + if schedule n = c then 1 else 0) :=
              Finset.sum_congr rfl fun c _ => hstep c
          _ = (∑ c in Finset.range (numSubscribers + 1),
                (NewsAgency.receivedIdx schedule n c).length)
              + ∑ c in Finset.range (numSubscribers + 1),
                  (if schedule n = c then 1 else 0) := Finset.sum_add_distrib
          _ = n + 1 := by
              rw [ih, Finset.sum_ite_eq]
              simp [Nat.lt_succ_of_le (h n)]

/-- Witness for claim C2's amended theorem: one subscriber, the schedule that
hands every message to the `listen` goroutine, one published message. -/
theorem newsAgency_distributes_witness :
    (∀ k < (["Срочно"] : List String).length, ∃! c, c ≤ 1 ∧
        k ∈ NewsAgency.receivedIdx (fun _ => 0)
              (["Срочно"] : List String).length c) ∧
    ∑ c in Finset.range 2,
        (NewsAgency.receivedIdx (fun _ => 0)
          (["Срочно"] : List String).length c).length
      = (["Срочно"] : List String).length :=
  newsAgency_distributes 1 (fun _ => 0) (fun _k => Nat.zero_le 1) ["Срочно"]

/-- `totalBalance` of a cons cell. -/
theorem totalBalance_cons (p : Nat × ℚ) (l : UsersTable) :
    totalBalance (p :: l) = p.2 + totalBalance l := by
  simp [totalBalance]

/-- A row found by `firstUser` is present, so `tx.Save` takes its update
branch. -/
theorem firstUser_any (t : UsersTable) (id : Nat) (b : ℚ)
    (h : firstUser t id = some b) : (t.any fun row => row.1 = id) = true := by
  induction t with
  | nil => simp [firstUser] at h
  | cons row rest ih =>
    by_cases hi : row.1 = id
    · simp [List.any_cons, hi]
    · have h' : firstUser rest id = some b := by
        simpa [firstUser, List.find?_cons, hi] using h
      simp [List.any_cons, hi, ih h']

/-- A table with no row of the given id yields no `firstUser` result. -/
theorem firstUser_none_of_any_false (t : UsersTable) (id : Nat)
    (h : (t.any fun row => row.1 = id) = false) : firstUser t id = none := by
  induction t with
  | nil => rfl
  | cons row rest ih =>
    rw [List.any_cons, Bool.or_eq_false_iff] at h
    have hi : ¬ row.1 = id := by simpa using h.1
    simpa [firstUser, List.find?_cons, hi] using ih h.2

/-- When a table has no row with the saved id, the update pass leaves it
unchanged. -/
theorem map_update_of_not_mem (t : UsersTable) (id : Nat) (b : ℚ)
    (h : ∀ row ∈ t, row.1 ≠ id) :
    (t.map fun row => if row.1 = id then (id, b) else row) = t := by
  induction t with
  | nil => rfl
  | cons row rest ih =>
    have h0 : row.1 ≠ id := h row (List.mem_cons_self row rest)
    rw [List.map_cons, if_neg h0, ih fun r hr => h r (List.mem_cons_of_mem row hr)]

/-- After the update pass over a table containing the id, the id's first row
holds the new balance. -/
theorem firstUser_map_update_self (t : UsersTable) (id : Nat) (b : ℚ)
    (hany : (t.any fun row => row.1 = id) = true) :
    firstUser (t.map fun row => if row.1 = id then (id, b) else row) id
      = some b := by
  induction t with
  | nil => simp at hany
  | cons row rest ih =>
    by_cases hi : row.1 = id
    · simp [firstUser, List.find?_cons, List.map_cons, if_pos hi]
    · rw [List.any_cons] at hany
      simp only [hi, decide_False, Bool.false_or] at hany
      simpa [firstUser, List.find?_cons, List.map_cons, if_neg hi, hi]
        using ih hany

/-- The update pass for one id does not change what `firstUser` returns for
any other id. -/
theorem firstUser_map_update_other (t : UsersTable) (id id' : Nat) (b : ℚ)
    (h : id' ≠ id) :
    firstUser (t.map fun row => if row.1 = id then (id, b) else row) id'
      = firstUser t id' := by
  induction t with
  | nil => rfl
  | cons row rest ih =>
    by_cases hi : row.1 = id
    · have h1 : ¬ (id = id') := fun he => h he.symm
      have h2 : ¬ (row.1 = id') := by rw [hi]; exact fun he => h he.symm
      simpa [firstUser, List.find?_cons, List.map_cons, if_pos hi, h1, h2]
        using ih
    · by_cases hi' : row.1 = id'
      · rw [List.map_cons, if_neg hi]
        simp [firstUser, List.find?_cons, hi']
      · simpa [firstUser, List.find?_cons, List.map_cons, if_neg hi, hi']
          using ih

/-- `tx.Save` stores the saved balance: `firstUser` finds it afterwards. -/
theorem firstUser_saveUser_self (t : UsersTable) (id : Nat) (b : ℚ) :
    firstUser (saveUser t id b) id = some b := by
  rw [saveUser]
  by_cases hany : (t.any fun row => row.1 = id) = true
  · rw [if_pos hany]
    exact firstUser_map_update_self t id b hany
  · rw [if_neg hany]
    have hnone : firstUser t id = none :=
      firstUser_none_of_any_false t id (by revert hany; cases t.any fun row => row.1 = id <;> simp)
    rw [firstUser, List.find?_append]
    have : t.find? (fun row => row.1 = id) = none := by
      have := hnone; rwa [firstUser, Option.map_eq_none'] at this
    rw [this]
    simp

/-- `tx.Save` for one id does not change `firstUser` for any other id. -/
theorem firstUser_saveUser_other (t : UsersTable) (id id' : Nat) (b : ℚ)
    (h : id' ≠ id) :
    firstUser (saveUser t id b) id' = firstUser t id' := by
  rw [saveUser]
  by_cases hany : (t.any fun row => row.1 = id) = true
  · rw [if_pos hany]
    exact firstUser_map_update_other t id id' b h
  · rw [if_neg hany]
    rw [firstUser, firstUser, List.find?_append]
    have hne : ¬ (id = id') := fun he => h he.symm
    have hlast : List.find? (fun row => row.1 = id') [((id : Nat), b)] = none := by
      simp [List.find?_cons, hne]
    rw [hlast]
    cases hf : t.find? fun row => row.1 = id' <;> simp [Option.orElse]

/-- `tx.Save` keeps the table's ids distinct. -/
theorem saveUser_keys_nodup (t : UsersTable) (id : Nat) (b : ℚ)
    (hnd : (t.map Prod.fst).Nodup) :
    ((saveUser t id b).map Prod.fst).Nodup := by
  rw [saveUser]
  by_cases hany : (t.any fun row => row.1 = id) = true
  · rw [if_pos hany]
    have hkeys : ((t.map fun row => if row.1 = id then (id, b) else row).map
        Prod.fst) = t.map Prod.fst := by
      rw [List.map_map]
      apply List.map_congr_left
      intro row hr
      by_cases hi : row.1 = id <;> simp [Function.comp, hi]
    rwa [hkeys]
  · rw [if_neg hany, List.map_append]
    have hid : id ∉ t.map Prod.fst := by
      intro hmem
      apply hany
      rw [List.any_eq_true]
      obtain ⟨row, hrow, hfst⟩ := List.mem_map.mp hmem
      exact ⟨row, hrow, by simp [hfst]⟩
    simp [List.nodup_append, hnd, hid]

/-- Saving over a present row changes the total of all balances by the
difference between the new balance and the row's old one; needs the table's
ids to be distinct. -/
theorem totalBalance_saveUser (t : UsersTable) (id : Nat) (b b' : ℚ)
    (hnd : (t.map Prod.fst).Nodup) (hf : firstUser t id = some b) :
    totalBalance (saveUser t id b') = totalBalance t - b + b' := by
  induction t with
  | nil => simp [firstUser] at hf
  | cons row rest ih =>
    rw [List.map_cons, List.nodup_cons] at hnd
    by_cases hi : row.1 = id
    · have hb : row.2 = b := by
        have := hf
        rw [firstUser, List.find?_cons] at this
        simp only [hi, decide_True] at this
        exact Option.some.inj this
      have hid : id ∉ rest.map Prod.fst := by rw [← hi]; exact hnd.1
      have hrest : ∀ r ∈ rest, r.1 ≠ id := fun r hr he =>
        hid (by simpa [he] using List.mem_map_of_mem Prod.fst hr)
      have hany : ((row :: rest).any fun r => r.1 = id) = true := by
        simp [List.any_cons, hi]
      rw [saveUser, if_pos hany, List.map_cons, if_pos hi,
        map_update_of_not_mem rest id b' hrest, totalBalance_cons,
        totalBalance_cons, hb]
      ring
    · have hf' : firstUser rest id = some b := by
        simpa [firstUser, List.find?_cons, hi] using hf
      have hanyr := firstUser_any rest id b hf'
      have ihr := ih hnd.2 hf'
      rw [saveUser, if_pos hanyr] at ihr
      have hany : ((row :: rest).any fun r => r.1 = id) = true := by
        simp [List.any_cons, hanyr]
      rw [saveUser, if_pos hany, List.map_cons, if_neg hi, totalBalance_cons,
        totalBalance_cons, ihr]
      ring

/-- A successful `tx.First` returns the looked-up row's balance. -/
theorem txFirst_ok_firstUser (env : DBEnv) (id : Nat) (b : ℚ)
    (h : txFirst env id = .ok b) : firstUser env.table id = some b := by
  rw [txFirst] at h
  by_cases hm : id ∈ env.firstFailIDs
  · rw [if_pos hm] at h; cases h
  · rw [if_neg hm] at h
    cases hfu : firstUser env.table id with
    | none => rw [hfu] at h; cases h
    | some v => rw [hfu] at h; cases h; rfl

/-- Counterexample to claim C8 as stated: when `db.Begin` fails,
`transferMoney` returns the error without calling `tx.Rollback`; and a
successful self-transfer (`fromID = toID = 1`) of `10` increases the total of
all balances by `10` instead of conserving it. -/
theorem transferMoney_claim_counterexample :
    (transferMoney ⟨[(1, 100), (2, 50)], true, [], [], false⟩ 1 2 10).rolledBack
      = false ∧
    (transferMoney ⟨[(1, 100), (2, 50)], true, [], [], false⟩ 1 2 10).result
      = some .beginErr ∧
    totalBalance
        (transferMoney ⟨[(1, 100), (2, 50)], false, [], [], false⟩ 1 1 10).table
      = totalBalance [(1, 100), (2, 50)] + 10 := by
  refine ⟨rfl, rfl, ?_⟩
  norm_num [transferMoney, txFirst, firstUser, saveUser, totalBalance,
    List.find?_cons, List.any_cons]

/-- Claim C8 (amended): `transferMoney` is atomic on error — on `db.Begin`
failure it returns the error with neither rollback nor commit; on any lookup
or save failure it rolls back, returns the error and leaves the table
untouched; `tx.Commit` is called exactly when both lookups and both saves
succeed, and then, for distinct accounts, `amount` moves from the source to
the destination and the total is conserved, while a self-transfer increases
the single account by `amount`. -/
theorem transferMoney_behaviour (env : DBEnv) (fromID toID : Nat) (amount : ℚ)
    (hnd : (env.table.map Prod.fst).Nodup) :
    transferMoneySpec env fromID toID amount := by
  refine ⟨fun hb => ?_, fun hb => ?_⟩
  · simp only [transferMoney, hb, if_true]
  · refine ⟨fun e hF => ?_, fun bf hF => ⟨fun e hT => ?_, fun bt hT =>
      ⟨fun hsf => ?_, fun hsf hst => ?_, fun hsf hst hc => ?_,
       fun hsf hst hc => ?_⟩⟩⟩
    · simp only [transferMoney, hb, Bool.false_eq_true, if_false, hF]
    · simp only [transferMoney, hb, Bool.false_eq_true, if_false, hF, hT]
    · simp only [transferMoney, hb, Bool.false_eq_true, if_false, hF, hT,
        if_pos hsf]
    · simp only [transferMoney, hb, Bool.false_eq_true, if_false, hF, hT,
        if_neg hsf, if_pos hst]
    · simp only [transferMoney, hb, Bool.false_eq_true, if_false, hF, hT,
        if_neg hsf, if_neg hst, hc, if_true]
    · have hred : transferMoney env fromID toID amount =
          { result := none, rolledBack := false, committed := true,
            table := saveUser (saveUser env.table fromID (bf - amount)) toID
              (bt + amount) } := by
        simp only [transferMoney, hb, Bool.false_eq_true, if_false, hF, hT,
          if_neg hsf, if_neg hst, hc, if_false]
      have hbf := txFirst_ok_firstUser env fromID bf hF
      have hbt := txFirst_ok_firstUser env toID bt hT
      refine ⟨by rw [hred], by rw [hred], by rw [hred], fun hne => ?_,
        fun heq => ?_⟩
      · have hnd1 := saveUser_keys_nodup env.table fromID (bf - amount) hnd
        have hft1 : firstUser (saveUser env.table fromID (bf - amount)) toID
            = some bt := by
          rw [firstUser_saveUser_other env.table fromID toID _
            (fun he => hne he.symm)]
          exact hbt
        have htot1 := totalBalance_saveUser env.table fromID bf (bf - amount)
          hnd hbf
        have htot2 := totalBalance_saveUser
          (saveUser env.table fromID (bf - amount)) toID bt (bt + amount)
          hnd1 hft1
        refine ⟨?_, ?_, ?_⟩
        · rw [hred]
          show totalBalance _ = _
          rw [htot2, htot1]
          ring
        · rw [hred]
          show firstUser _ fromID = _
          rw [firstUser_saveUser_other _ toID fromID _ hne,
            firstUser_saveUser_self]
        · rw [hred]
          show firstUser _ toID = _
          rw [firstUser_saveUser_self]
      · subst heq
        have hbfbt : bf = bt := by
          rw [hbf] at hbt
          exact Option.some.inj hbt
        subst hbfbt
        have hnd1 := saveUser_keys_nodup env.table fromID (bf - amount) hnd
        have hft1 : firstUser (saveUser env.table fromID (bf - amount)) fromID
            = some (bf - amount) := firstUser_saveUser_self _ _ _
        have htot1 := totalBalance_saveUser env.table fromID bf (bf - amount)
          hnd hbf
        have htot2 := totalBalance_saveUser
          (saveUser env.table fromID (bf - amount)) fromID (bf - amount)
          (bf + amount) hnd1 hft1
        refine ⟨?_, ?_⟩
        · rw [hred]
          show totalBalance _ = _
          rw [htot2, htot1]
          ring
        · rw [hred]
          show firstUser _ fromID = _
          rw [firstUser_saveUser_self]

/-- Witness for claim C8's amended theorem: the two-user table with distinct
ids, no failures, a transfer of `10` from user 1 to user 2. -/
theorem transferMoney_behaviour_witness :
    ((([(1, (100 : ℚ)), (2, 50)] : UsersTable).map Prod.fst).Nodup) ∧
    transferMoneySpec ⟨[(1, 100), (2, 50)], false, [], [], false⟩ 1 2 10 :=
  ⟨by decide, transferMoney_behaviour ⟨[(1, 100), (2, 50)], false, [], [], false⟩
    1 2 10 (by decide)⟩

end GoNotes
